import Mathlib

/-!
Verification of `react-navigation-surf` (`src/createSurfSplitNavigator.js`),
a split/stack adaptive navigator.  The definitions below are a shallow
embedding of the source file: pure functions become Lean functions, React
state and effects become explicit state passing over render passes.
-/

namespace SurfSplit

/-- Viewport dimensions `{width, height, scale, fontScale}` as read from the
window (JS numbers modelled as rationals). -/
structure Dimensions where
  width : ℚ
  height : ℚ
  scale : ℚ
  fontScale : ℚ
deriving DecidableEq, Repr

/-- `const getIsSplitted = ({ width }, mainWidth) => width > mainWidth;`
(src line 39). -/
def getIsSplitted (d : Dimensions) (mainWidth : ℚ) : Bool :=
  d.width > mainWidth

/-- The field-by-field change handler inside `useWindowDimensionsFallback`
(src lines 49–58): propagate the new window value only if at least one of the
four fields differs from the last-known `dimensions`; `none` means the update
is dropped. -/
def handleChange (dimensions window : Dimensions) : Option Dimensions :=
  if dimensions.width != window.width
      || dimensions.height != window.height
      || dimensions.scale != window.scale
      || dimensions.fontScale != window.fontScale
  then some window
  else none

/-- The dimensions state after one invocation of the change handler: the
propagated value if any field differed, otherwise the previous state. -/
def watcherStep (dimensions window : Dimensions) : Dimensions :=
  match handleChange dimensions window with
  | some d => d
  | none => dimensions

/-- The re-check performed right after subscribing (src line 63):
`handleChange({ window: Dimensions.get('window') })` run against the
dimensions used in the last render, closing the missed-update race. -/
def subscribeRecheck (dimensions currentWindow : Dimensions) : Dimensions :=
  watcherStep dimensions currentWindow

/-- Modelled from the spec: `MAIN_SCREEN_NAME`, the reserved route name
exported by `SurfSplitRouter` (that file is not under `src/`); the claims
depend only on it being a fixed name. -/
def MAIN_SCREEN_NAME : String := "main"

/-- Mode tag of the navigation state: `"stack"` or `"split"`. -/
inductive NavMode where
  | stack
  | split
deriving DecidableEq, Repr

/-- A route `{ key, name }` (params are irrelevant to the claims). -/
structure Route where
  key : String
  name : String
deriving DecidableEq, Repr

/-- `NavigationState`: ordered route list, focused index, mode tag. -/
structure NavigationState where
  routes : List Route
  index : Nat
  type : NavMode
deriving DecidableEq, Repr

/-- The `SetMode` synchronization message
(`SurfSplitActions.setSplitted(isSplitted, targetRouteName)`). -/
structure SetModeAction where
  isSplitted : Bool
  targetRouteName : String
deriving DecidableEq, Repr

/-- The exact message built at the dispatch site (src lines 120–125):
`setSplitted(isSplitted, isSplitted ? initialRouteName : MAIN_SCREEN_NAME)`. -/
def modeSyncAction (isSplitted : Bool) (initialRouteName : String) :
    SetModeAction :=
  ⟨isSplitted, if isSplitted then initialRouteName else MAIN_SCREEN_NAME⟩

/-- Modelled from the spec: NavigationStateStore's handling of a `SetMode`
message (the router lives in `SurfSplitRouter`, not under `src/`).  Per §4.3
the store sets the authoritative mode tag from the message's boolean; the
history-collapsing policy is store-owned and irrelevant to the claims. -/
def applySetMode (a : SetModeAction) (s : NavigationState) : NavigationState :=
  { s with type := if a.isSplitted then NavMode.split else NavMode.stack }

/-- The mode tag implied by a split boolean. -/
def modeOf (b : Bool) : NavMode :=
  if b then NavMode.split else NavMode.stack

/-! ## Component lifecycle: mode synchronization (src lines 119–126)

`React.useEffect(..., [isSplitted])` runs after the first render and after
every render on which `isSplitted` differs from the previous render's value.
We track the previously observed value as `Option Bool` (`none` before
mount) and thread the store-owned navigation state through the dispatched
messages. -/

/-- Persistent component/store state relevant to mode synchronization. -/
structure ComponentState where
  lastIsSplitted : Option Bool
  navState : NavigationState
deriving DecidableEq, Repr

/-- One render pass's mode-sync effect for the freshly computed boolean `b`:
dispatch `modeSyncAction` iff `b` differs from the value the effect last ran
with (always on mount), and let the store apply it.  Returns the new state
and the list of messages dispatched (empty or a singleton). -/
def modeSyncEffect (initialRouteName : String) (b : Bool)
    (cs : ComponentState) : ComponentState × List SetModeAction :=
  if cs.lastIsSplitted = some b then (cs, [])
  else
    let a := modeSyncAction b initialRouteName
    (⟨some b, applySetMode a cs.navState⟩, [a])

/-- Process a sequence of viewport-dimension updates: each update triggers a
render pass which recomputes `getIsSplitted` and runs the mode-sync effect.
Returns the final state and the concatenated dispatch trace. -/
def runWidths (initialRouteName : String) (mainWidth : ℚ)
    (cs : ComponentState) : List Dimensions → ComponentState × List SetModeAction
  | [] => (cs, [])
  | d :: ds =>
    let r := modeSyncEffect initialRouteName (getIsSplitted d mainWidth) cs
    let rest := runWidths initialRouteName mainWidth r.1 ds
    (rest.1, r.2 ++ rest.2)

/-- The sub-sequence of boolean transition edges in a sequence of observed
split booleans, given the previously observed value: an element is kept
exactly when it differs from its predecessor. -/
def splitEdges (prev : Bool) : List Bool → List Bool
  | [] => []
  | b :: bs => (if b = prev then [] else [b]) ++ splitEdges b bs

/-- The last value of a sequence of observed booleans, defaulting to the
previously observed value when the sequence is empty. -/
def lastObserved (prev : Bool) : List Bool → Bool
  | [] => prev
  | b :: bs => lastObserved b bs

/-! ## Lazy-mount tracker (src lines 128–134)

`const [loaded, setLoaded] = React.useState([])` plus an effect on `[state]`
that appends `state.index` when it is not already present. -/

/-- One run of the loaded-set effect body for focused index `idx`. -/
def loadedStep (loaded : List Nat) (idx : Nat) : List Nat :=
  if loaded.contains idx then loaded else loaded ++ [idx]

/-- The loaded-set effect as the source writes it: it reads `state.index`
from the whole navigation state, with no exemption for any route. -/
def loadedEffect (loaded : List Nat) (st : NavigationState) : List Nat :=
  loadedStep loaded st.index

/-- The loaded set after a sequence of focused indices has been observed. -/
def loadedAfter (init : List Nat) (idxs : List Nat) : List Nat :=
  idxs.foldl loadedStep init

/-! ## Layout renderer (src lines 136–218) -/

/-- What the detail pane's `routes.map` produces at one position: `null`, or
a `ResourceSavingScene` wrapping `descriptors[route.key].render()` with its
`isVisible` flag. -/
inductive DetailItem where
  | null
  | scene (key : String) (isVisible : Bool)
deriving DecidableEq, Repr

/-- The two stack-rendering backends (src lines 194–218). -/
inductive Backend where
  | nativeStack
  | jsStack
deriving DecidableEq, Repr

/-- A render result: the split layout (master pane mounting the main route's
descriptor by key, plus the detail-pane item list), or a delegation to a
stack backend carrying the projected state and the descriptor map (an
association of route keys to opaque render capabilities). -/
inductive RenderResult where
  | split (mainKey : String) (detail : List DetailItem)
  | stack (backend : Backend) (st : NavigationState)
      (descriptors : List (String × Nat))
deriving DecidableEq, Repr

/-- The body of `state.routes.map((route, index) => ...)` in the detail pane
(src lines 152–177): skip the main route by key, render nothing when the
index is neither loaded nor focused, otherwise a visibility-gated scene. -/
def renderDetailItem (mainKey : String) (focusedIndex : Nat)
    (loaded : List Nat) (index : Nat) (route : Route) : DetailItem :=
  if route.key == mainKey then DetailItem.null
  else if !(loaded.contains index) && !(focusedIndex == index) then
    DetailItem.null
  else DetailItem.scene route.key (focusedIndex == index)

/-- `state.routes.find(({ name }) => name === MAIN_SCREEN_NAME)`
(src lines 137–139). -/
def findMainRoute (routes : List Route) : Option Route :=
  routes.find? (fun r => r.name == MAIN_SCREEN_NAME)

/-- Backend selection (src line 194):
`Platform.OS !== 'web' && screensEnabled()` picks the native backend. -/
def chooseBackend (platformOS : String) (enabled : Bool) : Backend :=
  if platformOS != "web" && enabled then Backend.nativeStack
  else Backend.jsStack

/-- The navigator's render (src lines 136–218): in split mode, find the main
route or throw `You should provide main screen!`; otherwise project the
state to `type: 'stack'` and delegate to the chosen backend with the
descriptor map. -/
def renderNavigator (isSplitted : Bool) (st : NavigationState)
    (loaded : List Nat) (platformOS : String) (enabled : Bool)
    (descriptors : List (String × Nat)) : Except String RenderResult :=
  if isSplitted then
    match findMainRoute st.routes with
    | none =>
      Except.error ("You should provide " ++ MAIN_SCREEN_NAME ++ " screen!")
    | some mainRoute =>
      Except.ok (RenderResult.split mainRoute.key
        (st.routes.enum.map (fun p =>
          renderDetailItem mainRoute.key st.index loaded p.1 p.2)))
  else
    Except.ok (RenderResult.stack (chooseBackend platformOS enabled)
      { st with type := NavMode.stack } descriptors)

/-! ## Screen options override (src lines 96–117)

`const { splitStyles, ...restScreenOptions } = screenOptions || {};` and the
builder receives `{ ...restScreenOptions, headerShown: false }`. -/

/-- Opaque stand-in for the `splitStyles` styling slots. -/
structure SplitStyles where
  body : Nat
  main : Nat
  detail : Nat
deriving DecidableEq, Repr

/-- Caller-supplied `screenOptions`: the `splitStyles` slot, an optional
`headerShown`, and the remaining option entries kept opaque. -/
structure ScreenOptions where
  splitStyles : Option SplitStyles
  headerShown : Option Bool
  rest : List (String × String)
deriving DecidableEq, Repr

/-- The per-screen options handed to `useNavigationBuilder`: after the
spread, `headerShown` is a definite boolean and `splitStyles` is gone. -/
structure BuilderScreenOptions where
  headerShown : Bool
  rest : List (String × String)
deriving DecidableEq, Repr

/-- `{ ...restScreenOptions, headerShown: false }` (src lines 112–115),
with `screenOptions || {}` handling an absent object. -/
def buildScreenOptions (opts : Option ScreenOptions) : BuilderScreenOptions :=
  match opts with
  | none => ⟨false, []⟩
  | some o => ⟨false, o.rest⟩

/-! ## Theorems -/

/-- The fallback change handler propagates exactly when the two dimension
records differ (i.e. at least one of the four fields differs). -/
theorem handleChange_eq (dims w : Dimensions) :
    handleChange dims w = if dims = w then none else some w := by
  rcases dims with ⟨dw, dh, ds, df⟩
  rcases w with ⟨ww, wh, ws, wf⟩
  simp only [handleChange, Dimensions.mk.injEq]
  by_cases h1 : dw = ww <;> by_cases h2 : dh = wh <;> by_cases h3 : ds = ws <;>
    by_cases h4 : df = wf <;> simp [h1, h2, h3, h4]

/-- **C6.** The split detector is the pure hard threshold
`isSplit(w, m) = (w > m)`, returning `false` at the boundary `w = m`. -/
theorem getIsSplitted_pure_threshold :
    (∀ (d : Dimensions) (m : ℚ), getIsSplitted d m = decide (d.width > m)) ∧
    (∀ (w h s f : ℚ), getIsSplitted ⟨w, h, s, f⟩ w = false) := by
  refine ⟨fun d m => rfl, fun w h s f => ?_⟩
  simp [getIsSplitted]

/-- **C9.** The fallback dimension watcher propagates a resize notification
iff at least one of the four fields differs from the last-known value
(structural inequality of the two records), and the re-fetch performed upon
subscribing always leaves the state equal to the currently fetched window,
so an update missed between the initial read and subscription is recovered. -/
theorem useWindowDimensionsFallback_dedup_and_recheck :
    ∀ dims w : Dimensions,
      handleChange dims w = (if dims = w then none else some w) ∧
      subscribeRecheck dims w = w := by
  intro dims w
  refine ⟨handleChange_eq dims w, ?_⟩
  unfold subscribeRecheck watcherStep
  rw [handleChange_eq]
  by_cases h : dims = w <;> simp [h]

/-- **C10.** Whatever `screenOptions` the caller supplies (including
`headerShown: true`), the options handed to the navigation builder have
`headerShown = false`. -/
theorem headerShown_forced_false :
    (∀ opts : Option ScreenOptions,
      (buildScreenOptions opts).headerShown = false) ∧
    (∀ (st : Option SplitStyles) (r : List (String × String)),
      buildScreenOptions (some ⟨st, some true, r⟩) = ⟨false, r⟩) := by
  constructor
  · intro opts; cases opts <;> rfl
  · intro st r; rfl

/-- **C2.** If split mode is active and no route is named `MAIN_SCREEN_NAME`,
the render halts with the error naming the missing screen and never produces
a render result (in particular it never falls back to stack rendering). -/
theorem split_missing_main_fatal
    (st : NavigationState) (loaded : List Nat) (platformOS : String)
    (enabled : Bool) (descriptors : List (String × Nat))
    (h : ∀ r ∈ st.routes, Route.name r ≠ MAIN_SCREEN_NAME) :
    renderNavigator true st loaded platformOS enabled descriptors
      = Except.error ("You should provide " ++ MAIN_SCREEN_NAME ++ " screen!")
    ∧ ∀ t, renderNavigator true st loaded platformOS enabled descriptors
        ≠ Except.ok t := by
  have hfind : findMainRoute st.routes = none := by
    apply List.find?_eq_none.2
    intro r hr
    simpa using h r hr
  constructor
  · simp [renderNavigator, hfind]
  · intro t ht
    simp [renderNavigator, hfind] at ht

/-- Witness for `split_missing_main_fatal`: two detail-only screens, split
mode active. -/
theorem split_missing_main_fatal_witness :
    (∀ r ∈ [Route.mk "a" "detailA", Route.mk "b" "detailB"],
      Route.name r ≠ MAIN_SCREEN_NAME) ∧
    renderNavigator true
        ⟨[Route.mk "a" "detailA", Route.mk "b" "detailB"], 0, NavMode.split⟩
        [] "web" false []
      = Except.error ("You should provide " ++ MAIN_SCREEN_NAME ++ " screen!") :=
  ⟨by decide,
    (split_missing_main_fatal
      ⟨[Route.mk "a" "detailA", Route.mk "b" "detailB"], 0, NavMode.split⟩
      [] "web" false [] (by decide)).1⟩

/-- **C8.** Every stack-mode render delegates to the backend chosen by the
platform/capability predicate (`Platform.OS !== 'web' && screensEnabled()`),
passing the state projected to `type: 'stack'` and the descriptor map
unchanged. -/
theorem stack_mode_projection_and_backend :
    ∀ (st : NavigationState) (loaded : List Nat) (platformOS : String)
      (enabled : Bool) (descriptors : List (String × Nat)),
      renderNavigator false st loaded platformOS enabled descriptors
        = Except.ok (RenderResult.stack (chooseBackend platformOS enabled)
            { st with type := NavMode.stack } descriptors) ∧
      chooseBackend platformOS enabled
        = (if platformOS ≠ "web" ∧ enabled = true then Backend.nativeStack
           else Backend.jsStack) ∧
      ({ st with type := NavMode.stack } : NavigationState).type
        = NavMode.stack := by
  intro st loaded os e descs
  refine ⟨rfl, ?_, rfl⟩
  unfold chooseBackend
  by_cases h : os = "web"
  · subst h; cases e <;> simp
  · cases e <;> simp [h, bne_iff_ne]

/-- **C4.** The loaded set grows monotonically: each step's result contains
its input, and over any sequence of focus changes the set after `n` steps is
contained in the set after `n + 1` steps. -/
theorem loadedSet_monotone :
    (∀ (loaded : List Nat) (idx : Nat), loaded ⊆ loadedStep loaded idx) ∧
    (∀ (init seq : List Nat) (n : Nat),
      loadedAfter init (seq.take n) ⊆ loadedAfter init (seq.take (n + 1))) := by
  have hstep : ∀ (l : List Nat) (i : Nat), l ⊆ loadedStep l i := by
    intro l i a ha
    unfold loadedStep
    split
    · exact ha
    · exact List.mem_append_left _ ha
  refine ⟨hstep, ?_⟩
  intro init seq n
  rw [List.take_succ]
  unfold loadedAfter
  rw [List.foldl_append]
  cases h : seq[n]? with
  | none => simp
  | some x => simpa using hstep (List.foldl loadedStep init (seq.take n)) x

/-- Witness for `loadedSet_monotone`: focus sequence `[2, 1]`, step 1 to 2. -/
theorem loadedSet_monotone_witness :
    loadedAfter [] ([2, 1].take 1) ⊆ loadedAfter [] ([2, 1].take 2) :=
  loadedSet_monotone.2 [] [2, 1] 1

/-- The detail-pane map body for a route whose key differs from the main
route's key, rewritten into the render-policy form. -/
theorem renderDetailItem_eq (mainKey : String) (fidx : Nat)
    (loaded : List Nat) (i : Nat) (route : Route)
    (hkey : route.key ≠ mainKey) :
    renderDetailItem mainKey fidx loaded i route
      = (if loaded.contains i = false ∧ fidx ≠ i then DetailItem.null
         else DetailItem.scene route.key (fidx == i)) := by
  unfold renderDetailItem
  rw [if_neg (by simpa using hkey)]
  by_cases hc : loaded.contains i <;> by_cases hf : fidx = i <;>
    simp [hc, hf]

/-- **C3.** In a split-mode render, a non-main route at index `i` produces
nothing when `i` is neither the focused index nor in the loaded set, and
otherwise a visibility-gated scene with `isVisible = (i == focused index)`;
in particular a loaded, unfocused route stays in the tree with
`isVisible = false`. -/
theorem split_detail_render_policy
    (st : NavigationState) (loaded : List Nat) (platformOS : String)
    (enabled : Bool) (descriptors : List (String × Nat))
    (mainRoute route : Route) (i : Nat)
    (hmain : findMainRoute st.routes = some mainRoute)
    (hroute : st.routes[i]? = some route)
    (hkey : route.key ≠ mainRoute.key) :
    ∃ detail : List DetailItem,
      renderNavigator true st loaded platformOS enabled descriptors
        = Except.ok (RenderResult.split mainRoute.key detail) ∧
      detail[i]? = some
        (if loaded.contains i = false ∧ st.index ≠ i then DetailItem.null
         else DetailItem.scene route.key (st.index == i)) ∧
      (loaded.contains i = true → st.index ≠ i →
        detail[i]? = some (DetailItem.scene route.key false)) := by
  refine ⟨st.routes.enum.map
    (fun p => renderDetailItem mainRoute.key st.index loaded p.1 p.2),
    ?_, ?_, ?_⟩
  · simp [renderNavigator, hmain]
  · rw [List.getElem?_map, List.getElem?_enum, hroute]
    simp only [Option.map_some']
    rw [renderDetailItem_eq mainRoute.key st.index loaded i route hkey]
  · intro hc hf
    rw [List.getElem?_map, List.getElem?_enum, hroute]
    simp only [Option.map_some']
    rw [renderDetailItem_eq mainRoute.key st.index loaded i route hkey]
    have hmem : i ∈ loaded := by simpa using hc
    rw [if_neg (by simp [hmem])]
    simp [hf]

/-- Witness for `split_detail_render_policy`: routes
`[main, detailA, detailB]`, focused index 2, loaded set `{1}`; the route at
index 1 is mounted but hidden. -/
theorem split_detail_render_policy_witness :
    findMainRoute [Route.mk "mk" MAIN_SCREEN_NAME, Route.mk "ak" "detailA",
        Route.mk "bk" "detailB"]
      = some (Route.mk "mk" MAIN_SCREEN_NAME) ∧
    ([Route.mk "mk" MAIN_SCREEN_NAME, Route.mk "ak" "detailA",
        Route.mk "bk" "detailB"] : List Route)[1]?
      = some (Route.mk "ak" "detailA") ∧
    (Route.mk "ak" "detailA").key ≠ (Route.mk "mk" MAIN_SCREEN_NAME).key ∧
    (∃ detail : List DetailItem,
      renderNavigator true
          ⟨[Route.mk "mk" MAIN_SCREEN_NAME, Route.mk "ak" "detailA",
            Route.mk "bk" "detailB"], 2, NavMode.split⟩ [1] "web" false []
        = Except.ok (RenderResult.split (Route.mk "mk" MAIN_SCREEN_NAME).key
            detail) ∧
      detail[1]? = some
        (if [1].contains 1 = false ∧
            (⟨[Route.mk "mk" MAIN_SCREEN_NAME, Route.mk "ak" "detailA",
              Route.mk "bk" "detailB"], 2, NavMode.split⟩ :
                NavigationState).index ≠ 1
         then DetailItem.null
         else DetailItem.scene (Route.mk "ak" "detailA").key
            ((⟨[Route.mk "mk" MAIN_SCREEN_NAME, Route.mk "ak" "detailA",
              Route.mk "bk" "detailB"], 2, NavMode.split⟩ :
                NavigationState).index == 1)) ∧
      ([1].contains 1 = true →
        (⟨[Route.mk "mk" MAIN_SCREEN_NAME, Route.mk "ak" "detailA",
          Route.mk "bk" "detailB"], 2, NavMode.split⟩ :
            NavigationState).index ≠ 1 →
        detail[1]? = some (DetailItem.scene (Route.mk "ak" "detailA").key
          false))) :=
  ⟨by decide, by decide, by decide,
    split_detail_render_policy
      ⟨[Route.mk "mk" MAIN_SCREEN_NAME, Route.mk "ak" "detailA",
        Route.mk "bk" "detailB"], 2, NavMode.split⟩ [1] "web" false []
      (Route.mk "mk" MAIN_SCREEN_NAME) (Route.mk "ak" "detailA") 1
      (by decide) (by decide) (by decide)⟩

/-- **C5 counterexample.** The loaded-set effect inserts the focused index
even when that index is the main route's: with the main route first (index
0) and focused, the loaded set gains index 0. -/
theorem main_index_inserted_counterexample :
    findMainRoute [Route.mk "main-key" MAIN_SCREEN_NAME,
        Route.mk "detail-key" "detail"]
      = some (Route.mk "main-key" MAIN_SCREEN_NAME) ∧
    ([Route.mk "main-key" MAIN_SCREEN_NAME,
        Route.mk "detail-key" "detail"] : List Route)[0]?
      = some (Route.mk "main-key" MAIN_SCREEN_NAME) ∧
    (loadedEffect []
        ⟨[Route.mk "main-key" MAIN_SCREEN_NAME,
          Route.mk "detail-key" "detail"], 0, NavMode.stack⟩).contains 0
      = true := by
  refine ⟨by decide, by decide, by decide⟩

/-- **C5 amended.** The renderer never reads the loaded set for the main
route — a route carrying the main key yields `null` in the detail pane for
every loaded set — and in split mode the main route is always mounted
unconditionally in the master pane; however the loaded-set insertion does
not exempt the main route's index (see the counterexample). -/
theorem main_route_unconditional_and_not_read
    (mainKey : String) (fidx : Nat) (loaded other : List Nat) (i : Nat)
    (route : Route) (hkey : route.key = mainKey) :
    renderDetailItem mainKey fidx loaded i route = DetailItem.null ∧
    renderDetailItem mainKey fidx loaded i route
      = renderDetailItem mainKey fidx other i route ∧
    (∀ (st : NavigationState) (platformOS : String) (enabled : Bool)
        (descriptors : List (String × Nat)) (r : Route),
      findMainRoute st.routes = some r →
      ∃ detail, renderNavigator true st loaded platformOS enabled descriptors
        = Except.ok (RenderResult.split r.key detail)) := by
  have hnull : ∀ l : List Nat,
      renderDetailItem mainKey fidx l i route = DetailItem.null := by
    intro l
    unfold renderDetailItem
    rw [if_pos (by simpa using hkey)]
  refine ⟨hnull loaded, (hnull loaded).trans (hnull other).symm, ?_⟩
  intro st os e descs r hr
  refine ⟨st.routes.enum.map
    (fun p => renderDetailItem r.key st.index loaded p.1 p.2), ?_⟩
  simp [renderNavigator, hr]

/-- Witness for `main_route_unconditional_and_not_read`: key `"mk"`,
loaded sets `[0]` and `[]`. -/
theorem main_route_unconditional_witness :
    (Route.mk "mk" MAIN_SCREEN_NAME).key = "mk" ∧
    (renderDetailItem "mk" 0 [0] 0 (Route.mk "mk" MAIN_SCREEN_NAME)
        = DetailItem.null ∧
      renderDetailItem "mk" 0 [0] 0 (Route.mk "mk" MAIN_SCREEN_NAME)
        = renderDetailItem "mk" 0 [] 0 (Route.mk "mk" MAIN_SCREEN_NAME) ∧
      (∀ (st : NavigationState) (platformOS : String) (enabled : Bool)
          (descriptors : List (String × Nat)) (r : Route),
        findMainRoute st.routes = some r →
        ∃ detail, renderNavigator true st [0] platformOS enabled descriptors
          = Except.ok (RenderResult.split r.key detail))) :=
  ⟨rfl, main_route_unconditional_and_not_read "mk" 0 [0] [] 0
    (Route.mk "mk" MAIN_SCREEN_NAME) rfl⟩

/-- **C1.** Over any sequence of viewport updates processed by a mounted
component (previous boolean `b0` already synchronized), the dispatched
`SetMode` trace is exactly one message per transition edge of the
`isSplitted` boolean — none on updates where the boolean did not change —
and the final navigation-state mode is the mode implied by the last width
observed. -/
theorem setMode_once_per_edge_and_final_mode
    (initialRouteName : String) (mainWidth : ℚ) (cs : ComponentState)
    (b0 : Bool) (ws : List Dimensions)
    (hlast : cs.lastIsSplitted = some b0)
    (hmode : cs.navState.type = modeOf b0) :
    (runWidths initialRouteName mainWidth cs ws).2
      = (splitEdges b0 (ws.map (fun d => getIsSplitted d mainWidth))).map
          (fun b => modeSyncAction b initialRouteName) ∧
    (runWidths initialRouteName mainWidth cs ws).1.navState.type
      = modeOf (lastObserved b0
          (ws.map (fun d => getIsSplitted d mainWidth))) := by
  induction ws generalizing cs b0 with
  | nil => simpa [runWidths, splitEdges, lastObserved] using hmode
  | cons d ds ih =>
    by_cases heq : getIsSplitted d mainWidth = b0
    · have heff :
          modeSyncEffect initialRouteName (getIsSplitted d mainWidth) cs
            = (cs, []) := by
        unfold modeSyncEffect
        rw [if_pos (by rw [hlast, heq])]
      have hrec := ih cs (getIsSplitted d mainWidth)
        (by rw [hlast, heq]) (by rw [hmode, heq])
      simp only [runWidths, List.map_cons, splitEdges, lastObserved, heff,
        if_pos heq, List.nil_append]
      exact hrec
    · have hcond : ¬ cs.lastIsSplitted
          = some (getIsSplitted d mainWidth) := by
        rw [hlast]
        intro hcontra
        exact heq (Option.some.inj hcontra).symm
      have heff :
          modeSyncEffect initialRouteName (getIsSplitted d mainWidth) cs
            = (⟨some (getIsSplitted d mainWidth),
                applySetMode (modeSyncAction (getIsSplitted d mainWidth)
                  initialRouteName) cs.navState⟩,
               [modeSyncAction (getIsSplitted d mainWidth)
                  initialRouteName]) := by
        unfold modeSyncEffect
        rw [if_neg hcond]
      have hrec := ih ⟨some (getIsSplitted d mainWidth),
          applySetMode (modeSyncAction (getIsSplitted d mainWidth)
            initialRouteName) cs.navState⟩
        (getIsSplitted d mainWidth) rfl
        (by cases hb : getIsSplitted d mainWidth <;>
          simp [applySetMode, modeSyncAction, modeOf, hb])
      simp only [runWidths, List.map_cons, splitEdges, lastObserved, heff,
        if_neg heq]
      refine ⟨?_, hrec.2⟩
      simp [hrec.1]

/-- Witness for `setMode_once_per_edge_and_final_mode`: mounted with
`isSplitted = false`, widths `400, 500, 200` against threshold `300`
(two edges: `false → true` at 400, `true → false` at 200). -/
theorem setMode_once_per_edge_witness :
    (⟨some false, ⟨[], 0, NavMode.stack⟩⟩ : ComponentState).lastIsSplitted
      = some false ∧
    (⟨some false, ⟨[], 0, NavMode.stack⟩⟩ :
        ComponentState).navState.type = modeOf false ∧
    ((runWidths "start" 300 ⟨some false, ⟨[], 0, NavMode.stack⟩⟩
        [⟨400, 1, 1, 1⟩, ⟨500, 1, 1, 1⟩, ⟨200, 1, 1, 1⟩]).2
      = (splitEdges false
          ([⟨400, 1, 1, 1⟩, ⟨500, 1, 1, 1⟩,
            (⟨200, 1, 1, 1⟩ : Dimensions)].map
            (fun d => getIsSplitted d 300))).map
          (fun b => modeSyncAction b "start") ∧
    (runWidths "start" 300 ⟨some false, ⟨[], 0, NavMode.stack⟩⟩
        [⟨400, 1, 1, 1⟩, ⟨500, 1, 1, 1⟩, ⟨200, 1, 1, 1⟩]).1.navState.type
      = modeOf (lastObserved false
          ([⟨400, 1, 1, 1⟩, ⟨500, 1, 1, 1⟩,
            (⟨200, 1, 1, 1⟩ : Dimensions)].map
            (fun d => getIsSplitted d 300)))) :=
  ⟨rfl, rfl,
    setMode_once_per_edge_and_final_mode "start" 300
      ⟨some false, ⟨[], 0, NavMode.stack⟩⟩ false
      [⟨400, 1, 1, 1⟩, ⟨500, 1, 1, 1⟩, ⟨200, 1, 1, 1⟩] rfl rfl⟩

/-- **C7.** Every `SetMode` message dispatched in any run carries a target
route name equal to `initialRouteName` when its boolean is `true` and to
`MAIN_SCREEN_NAME` when it is `false`. -/
theorem setMode_message_payload
    (initialRouteName : String) (mainWidth : ℚ) (cs : ComponentState)
    (ws : List Dimensions) (a : SetModeAction)
    (ha : a ∈ (runWidths initialRouteName mainWidth cs ws).2) :
    a.targetRouteName
      = (if a.isSplitted then initialRouteName else MAIN_SCREEN_NAME) := by
  induction ws generalizing cs with
  | nil => simp [runWidths] at ha
  | cons d ds ih =>
    simp only [runWidths, List.mem_append] at ha
    rcases ha with h1 | h2
    · unfold modeSyncEffect at h1
      by_cases hc : cs.lastIsSplitted = some (getIsSplitted d mainWidth)
      · rw [if_pos hc] at h1
        simp at h1
      · rw [if_neg hc] at h1
        simp only [List.mem_singleton] at h1
        subst h1
        rfl
    · exact ih _ h2

/-- Witness for `setMode_message_payload`: the message dispatched on mount
for width `400` against threshold `300`. -/
theorem setMode_message_payload_witness :
    modeSyncAction true "start"
      ∈ (runWidths "start" 300 ⟨none, ⟨[], 0, NavMode.stack⟩⟩
          [⟨400, 1, 1, 1⟩]).2 ∧
    (modeSyncAction true "start").targetRouteName
      = (if (modeSyncAction true "start").isSplitted then "start"
         else MAIN_SCREEN_NAME) :=
  ⟨by decide,
    setMode_message_payload "start" 300 ⟨none, ⟨[], 0, NavMode.stack⟩⟩
      [⟨400, 1, 1, 1⟩] (modeSyncAction true "start") (by decide)⟩

end SurfSplit
